import Mathlib

/-!
Verification of the replication coordinator in src/main.go.

The coordinator keeps a metadata mapping from file id to FileMeta, fans uploads
out to a fixed list of storage nodes, and answers nearest-replica, read-redirect
and delete requests.  The definitions below embed the data model and the five
HTTP handlers; network effects are passed in explicitly: the per-node HTTP
outcome of a replicate or delete request is a function from the node to
Option Nat, where none models a transport error from client.Do and some s an
HTTP response with status s, and the wall clock read by time.Now().UnixNano()
is an explicit Nat parameter.
-/

open Real

/-- StorageNode (src/main.go lines 21-26): identity of a replica target, loaded
once at startup. Coordinates are modelled as real numbers. -/
structure StorageNode where
  id : String
  url : String
  lat : ℝ
  lon : ℝ

/-- FileMeta (src/main.go lines 28-34): one metadata record per ingested file. -/
structure FileMeta where
  id : String
  filename : String
  size : Int
  replicated : List String
  createdAt : String
deriving DecidableEq, Repr

/-- Observable outcome of one HTTP handler call: an error status with message
(http.Error), a 404 (http.NotFound), a bare 201 (WriteHeader), a JSON-encoded
node descriptor, a redirect (http.Redirect), or a plain text body (w.Write). -/
inductive HttpResult where
  | error (status : Nat) (msg : String)
  | notFound
  | created
  | node (n : StorageNode)
  | redirect (status : Nat) (location : String)
  | text (body : String)

/-- The in-memory metadata mapping files : map[string]FileMeta (line 40),
modelled as an association list with at most one entry per key. -/
def Store := List (String × FileMeta)

/-- Map lookup meta, ok := files[id]. -/
def getMeta (s : Store) (id : String) : Option FileMeta :=
  (List.find? (fun p => p.1 == id) s).map (fun p => p.2)

/-- Map removal delete(files, id) (line 232). -/
def delMeta (s : Store) (id : String) : Store :=
  List.filter (fun p => !(p.1 == id)) s

/-- Map assignment files[id] = meta (line 156): inserts or overwrites. -/
def putMeta (s : Store) (id : String) (m : FileMeta) : Store :=
  (id, m) :: delMeta s id

/-- haversine (src/main.go lines 59-68): great-circle distance in kilometers
with Earth radius R = 6371, on real numbers in place of float64. -/
noncomputable def haversine (aLat aLon bLat bLon : ℝ) : ℝ :=
  let R : ℝ := 6371
  let dLat := (bLat - aLat) * π / 180
  let dLon := (bLon - aLon) * π / 180
  let la1 := aLat * π / 180
  let la2 := bLat * π / 180
  let h := Real.sin (dLat / 2) * Real.sin (dLat / 2) +
    Real.sin (dLon / 2) * Real.sin (dLon / 2) * Real.cos la1 * Real.cos la2
  2 * R * Real.arcsin (Real.sqrt h)

/-- Replication loop of the /upload handler (lines 124-153): for each configured
node in order, a transport error (resp n = none) is skipped with continue, and
the node id is appended to rep exactly when the response status is 201. -/
def replicateAll (nodes : List StorageNode) (resp : StorageNode → Option Nat) :
    List String :=
  nodes.foldl
    (fun rep n =>
      match resp n with
      | none => rep
      | some s => if s == 201 then rep ++ [n.id] else rep)
    []

/-- Identifier generation id := fmt.Sprintf("%d", time.Now().UnixNano())
(line 122): the decimal rendering of the clock value, which is passed in as the
explicit parameter now. -/
def genId (now : Nat) : String := toString now

/-- The /upload handler (lines 106-166): with no file part it answers 400; else
it reads the bytes, generates the id, runs the replication loop, writes the
FileMeta into the map and answers 201. The composite literal at lines 156-159
omits the CreatedAt field, so it holds the Go zero value, the empty string. -/
def uploadHandler (nodes : List StorageNode) (resp : StorageNode → Option Nat)
    (now : Nat) (filePart : Option (String × List UInt8)) (files : Store) :
    Store × HttpResult :=
  match filePart with
  | none => (files, .error 400 "file required")
  | some (filename, data) =>
    let id := genId now
    let rep := replicateAll nodes resp
    let meta : FileMeta :=
      { id := id, filename := filename, size := (data.length : Int),
        replicated := rep, createdAt := "" }
    (putMeta files id meta, .created)

open scoped Classical in
/-- Inner search of the /nearest/ handler (lines 195-208): starting from
best := nodes[0] and bestD := 1e18, scan every pair of a configured node and a
replica id, and when they match compare the haversine distance to the reference
point against the current best. -/
noncomputable def nearestScan (nodes : List StorageNode) (reps : List String)
    (lat lon : ℝ) (init : StorageNode × ℝ) : StorageNode × ℝ :=
  nodes.foldl
    (fun acc n =>
      reps.foldl
        (fun acc rid =>
          if n.id == rid then
            let d := haversine lat lon n.lat n.lon
            if d < acc.2 then (n, d) else acc
          else acc)
        acc)
    init

/-- The /nearest/ handler (lines 170-212): 503 when no nodes are configured,
404 when the id is absent from the map, 503 when the record has an empty
replica list, and otherwise the JSON encoding of the node produced by the scan,
seeded with nodes[0] and 1e18 against the fixed reference point
(1.3521, 103.8198). The handler reads the map and mutates nothing. -/
noncomputable def nearestHandler (nodes : List StorageNode) (files : Store)
    (id : String) : HttpResult :=
  match nodes with
  | [] => .error 503 "no storage nodes configured"
  | n0 :: rest =>
    match getMeta files id with
    | none => .notFound
    | some meta =>
      if meta.replicated.isEmpty then .error 503 "file not replicated yet"
      else
        .node (nearestScan (n0 :: rest) meta.replicated 1.3521 103.8198
          (n0, 1e18)).1

/-- The /file/ handler (lines 215-222): 503 when no nodes are configured, else
a 307 redirect to the file endpoint of nodes[0]. It takes no metadata store
argument because the code never consults the files map on this path. -/
def fileHandler (nodes : List StorageNode) (id : String) : HttpResult :=
  match nodes with
  | [] => .error 503 "no storage nodes configured"
  | n0 :: _ => .redirect 307 (n0.url ++ "/file/" ++ id)

/-- The /delete/ handler (lines 225-236): issues one DELETE per configured node
with both the response and the error of client.Do discarded (the per-node
outcomes parameter is therefore unused), then removes the map entry
unconditionally and answers the plain text deleted. -/
def deleteHandler (nodes : List StorageNode)
    (outcomes : StorageNode → Option Nat) (files : Store) (id : String) :
    Store × HttpResult :=
  let _ := nodes.map outcomes
  (delMeta files id, .text "deleted")

/-- loadDB (lines 48-52): raw = none models os.ReadFile failing, some none a
file whose JSON does not unmarshal (the error is discarded and files is left
as it was), and some (some m) a successful parse replacing the empty map. -/
def loadDB (raw : Option (Option Store)) (files : Store) : Store :=
  match raw with
  | some (some parsed) => parsed
  | some none => files
  | none => files

/-- Metadata mapping visible when the process starts serving: the global files
map is initialised empty (line 40) and main (lines 72-96) registers the
handlers without ever invoking loadDB, whatever the durable file holds. -/
def startupFiles (raw : Option (Option Store)) : Store :=
  let _ := raw
  []

/-- Numeric value of a decimal digit string, the left inverse used to show that
Nat.toDigits 10, and hence genId, is injective. -/
def digitsVal (l : List Char) : Nat :=
  l.foldl (fun acc c => 10 * acc + (c.toNat - 48)) 0

/-! ### Helper lemmas -/

theorem digitsVal_append (l : List Char) (c : Char) :
    digitsVal (l ++ [c]) = 10 * digitsVal l + (c.toNat - 48) := by
  simp [digitsVal, List.foldl_append]

theorem digitChar_val (m : Nat) (h : m < 10) :
    (Nat.digitChar m).toNat - 48 = m := by
  interval_cases m <;> decide

theorem toDigitsCore_append (fuel n : Nat) (ds : List Char) :
    Nat.toDigitsCore 10 fuel n ds = Nat.toDigitsCore 10 fuel n [] ++ ds := by
  induction fuel generalizing n ds with
  | zero => simp [Nat.toDigitsCore]
  | succ f ih =>
    simp only [Nat.toDigitsCore]
    by_cases h : n / 10 = 0
    · simp [h]
    · rw [if_neg h, if_neg h, ih (n / 10) [Nat.digitChar (n % 10)],
        ih (n / 10) (Nat.digitChar (n % 10) :: ds)]
      simp

theorem toDigitsCore_val (fuel n : Nat) (h : n < fuel) :
    digitsVal (Nat.toDigitsCore 10 fuel n []) = n := by
  induction fuel generalizing n with
  | zero => omega
  | succ f ih =>
    simp only [Nat.toDigitsCore]
    by_cases h0 : n / 10 = 0
    · have hn : n < 10 := by omega
      have hd := digitChar_val n hn
      simp [h0, digitsVal, Nat.mod_eq_of_lt hn, hd]
    · have h10 : n / 10 < f := by
        have h1 : 0 < n := by omega
        have := Nat.div_lt_self h1 (by norm_num : (1 : Nat) < 10)
        omega
      rw [if_neg h0, toDigitsCore_append, digitsVal_append, ih _ h10,
        digitChar_val (n % 10) (Nat.mod_lt _ (by norm_num))]
      omega

theorem natToString_inj (m n : Nat) (h : toString m = toString n) : m = n := by
  have hrepr : Nat.repr m = Nat.repr n := h
  have hds : Nat.toDigits 10 m = Nat.toDigits 10 n := by
    have h2 := congrArg String.data hrepr
    simpa [Nat.repr, List.asString] using h2
  have h3 := congrArg digitsVal hds
  rwa [Nat.toDigits, Nat.toDigits, toDigitsCore_val _ _ (Nat.lt_succ_self m),
    toDigitsCore_val _ _ (Nat.lt_succ_self n)] at h3

theorem sin_sq_swap (x y : ℝ) :
    Real.sin ((x - y) * π / 180 / 2) * Real.sin ((x - y) * π / 180 / 2)
      = Real.sin ((y - x) * π / 180 / 2) * Real.sin ((y - x) * π / 180 / 2) := by
  have hx : (x - y) * π / 180 / 2 = -((y - x) * π / 180 / 2) := by ring
  rw [hx, Real.sin_neg]
  ring

/-! ### Claims -/

/-- C5: haversine of a point with itself is zero, haversine is symmetric in its
two points, and it is the great-circle formula with Earth radius 6371 km. -/
theorem haversine_zero_symm_formula :
    (∀ lat lon : ℝ, haversine lat lon lat lon = 0) ∧
    (∀ aLat aLon bLat bLon : ℝ,
      haversine aLat aLon bLat bLon = haversine bLat bLon aLat aLon) ∧
    (∀ aLat aLon bLat bLon : ℝ,
      haversine aLat aLon bLat bLon =
        2 * 6371 * Real.arcsin (Real.sqrt
          (Real.sin ((bLat - aLat) * π / 180 / 2) *
              Real.sin ((bLat - aLat) * π / 180 / 2) +
            Real.sin ((bLon - aLon) * π / 180 / 2) *
                Real.sin ((bLon - aLon) * π / 180 / 2) *
              Real.cos (aLat * π / 180) * Real.cos (bLat * π / 180)))) := by
  refine ⟨?_, ?_, ?_⟩
  · intro lat lon
    simp [haversine]
  · intro aLat aLon bLat bLon
    simp only [haversine]
    rw [sin_sq_swap bLat aLat, sin_sq_swap bLon aLon]
    ring_nf
  · intro aLat aLon bLat bLon
    rfl

theorem replicateAll_foldl (nodes : List StorageNode)
    (resp : StorageNode → Option Nat) (acc : List String) :
    nodes.foldl
      (fun rep n =>
        match resp n with
        | none => rep
        | some s => if s == 201 then rep ++ [n.id] else rep) acc
    = acc ++ (nodes.filter (fun n => resp n == some 201)).map (fun n => n.id) := by
  induction nodes generalizing acc with
  | nil => simp
  | cons n ns ih =>
    simp only [List.foldl_cons, List.filter_cons]
    cases hr : resp n with
    | none => simpa [hr] using ih acc
    | some s =>
      by_cases hs : s = 201
      · subst hs
        simpa [hr] using ih (acc ++ [n.id])
      · simpa [hr, hs] using ih acc

theorem replicateAll_eq_filter (nodes : List StorageNode)
    (resp : StorageNode → Option Nat) :
    replicateAll nodes resp
      = (nodes.filter (fun n => resp n == some 201)).map (fun n => n.id) := by
  have h := replicateAll_foldl nodes resp []
  simp only [List.nil_append] at h
  exact h

/-- C4: the acknowledgment list built by the replication loop is exactly the
ids of the nodes whose response was 201, in configuration order: a transport
error or non-201 status leaves its node out without stopping the loop, and
each node contributes according to its own response only. -/
theorem replication_per_node_independent (nodes : List StorageNode)
    (resp : StorageNode → Option Nat) :
    replicateAll nodes resp
      = (nodes.filter (fun n => resp n == some 201)).map (fun n => n.id) :=
  replicateAll_eq_filter nodes resp

theorem getMeta_putMeta (s : Store) (id : String) (m : FileMeta) :
    getMeta (putMeta s id m) id = some m := by
  simp [getMeta, putMeta, List.find?]

theorem getMeta_delMeta (s : Store) (id : String) :
    getMeta (delMeta s id) id = none := by
  have hf : List.find? (fun p => p.1 == id)
      (List.filter (fun p => !(p.1 == id)) s) = none := by
    rw [List.find?_eq_none]
    intro p hp
    have h2 := List.of_mem_filter hp
    simp only [Bool.not_eq_true'] at h2
    simp [h2]
  simp [getMeta, delMeta, hf]

theorem delMeta_of_absent (s : Store) (id : String) (h : getMeta s id = none) :
    delMeta s id = s := by
  have hf : List.find? (fun p => p.1 == id) s = none := by
    cases hfind : List.find? (fun p => p.1 == id) s with
    | none => rfl
    | some p => rw [getMeta, hfind] at h; simp at h
  rw [List.find?_eq_none] at hf
  rw [delMeta, List.filter_eq_self]
  intro p hp
  simpa using hf p hp

theorem replicateAll_nil_of_no_201 (nodes : List StorageNode)
    (resp : StorageNode → Option Nat) (h : ∀ n ∈ nodes, resp n ≠ some 201) :
    replicateAll nodes resp = [] := by
  rw [replicateAll_eq_filter]
  have hfil : nodes.filter (fun n => resp n == some 201) = [] := by
    rw [List.filter_eq_nil_iff]
    intro n hn
    simpa using h n hn
  rw [hfil]
  rfl

/-- C2: when every configured node fails with a transport error or answers a
status other than 201, the upload still answers 201 Created and the stored
record carries an empty replica list. -/
theorem upload_all_failed_still_created (nodes : List StorageNode)
    (resp : StorageNode → Option Nat) (now : Nat) (fn : String)
    (data : List UInt8) (files : Store)
    (h : ∀ n ∈ nodes, resp n ≠ some 201) :
    (uploadHandler nodes resp now (some (fn, data)) files).2 = .created ∧
    getMeta (uploadHandler nodes resp now (some (fn, data)) files).1 (genId now)
      = some { id := genId now, filename := fn, size := (data.length : Int),
               replicated := [], createdAt := "" } := by
  have hrep := replicateAll_nil_of_no_201 nodes resp h
  constructor
  · rfl
  · simp only [uploadHandler, hrep]
    exact getMeta_putMeta files (genId now) _

theorem upload_all_failed_still_created_witness :
    (uploadHandler [⟨"n1", "u", 0, 0⟩] (fun _ => some 500) 7
        (some ("a", [])) []).2 = HttpResult.created ∧
    getMeta (uploadHandler [⟨"n1", "u", 0, 0⟩] (fun _ => some 500) 7
        (some ("a", [])) []).1 (genId 7)
      = some { id := genId 7, filename := "a", size := 0,
               replicated := [], createdAt := "" } :=
  upload_all_failed_still_created _ _ _ _ _ _ (by intro n _; decide)

/-- C6: ingests performed at distinct clock readings generate distinct ids (the
decimal rendering of the nanosecond clock value is injective), and a get of the
new id right after the ingest returns a record whose filename and size match
the uploaded payload. -/
theorem ingest_id_unique_and_get_matches (nodes : List StorageNode)
    (resp : StorageNode → Option Nat) (t1 t2 : Nat) (fn : String)
    (data : List UInt8) (files : Store) (ht : t1 ≠ t2) :
    genId t1 ≠ genId t2 ∧
    ∃ meta, getMeta (uploadHandler nodes resp t1 (some (fn, data)) files).1
        (genId t1) = some meta ∧ meta.filename = fn ∧
        meta.size = (data.length : Int) := by
  constructor
  · intro hg
    exact ht (natToString_inj t1 t2 hg)
  · have hm := getMeta_putMeta files (genId t1)
      { id := genId t1, filename := fn, size := (data.length : Int),
        replicated := replicateAll nodes resp, createdAt := "" }
    exact ⟨_, hm, rfl, rfl⟩

theorem ingest_id_unique_and_get_matches_witness :
    genId 1 ≠ genId 2 ∧
    ∃ meta, getMeta (uploadHandler [] (fun _ => none) 1
        (some ("f.bin", [3])) []).1 (genId 1) = some meta ∧
        meta.filename = "f.bin" ∧ meta.size = (([3] : List UInt8).length : Int) :=
  ingest_id_unique_and_get_matches [] (fun _ => none) 1 2 "f.bin" [3] []
    (by decide)

/-- C7: the record written by the upload handler always carries an empty
createdAt: the composite literal at src/main.go lines 156-159 never assigns the
CreatedAt field, so the stored record keeps the Go zero value, the empty
string, rather than the ingest timestamp the spec promises. -/
theorem upload_leaves_createdAt_empty (nodes : List StorageNode)
    (resp : StorageNode → Option Nat) (now : Nat) (fn : String)
    (data : List UInt8) (files : Store) :
    ∃ meta, getMeta (uploadHandler nodes resp now (some (fn, data)) files).1
        (genId now) = some meta ∧ meta.createdAt = "" := by
  have hm := getMeta_putMeta files (genId now)
    { id := genId now, filename := fn, size := (data.length : Int),
      replicated := replicateAll nodes resp, createdAt := "" }
  exact ⟨_, hm, rfl⟩

/-- C3: with at least one configured node, the nearest handler answers 404 when
the id is absent from the metadata map and 503 when the record exists with an
empty replica list; in both branches no node descriptor is returned, and the
handler only reads the map, mutating nothing. -/
theorem nearest_notfound_and_unreplicated (nodes : List StorageNode)
    (files : Store) (id : String) (hn : nodes ≠ []) :
    (getMeta files id = none → nearestHandler nodes files id = .notFound) ∧
    (∀ meta, getMeta files id = some meta → meta.replicated = [] →
      nearestHandler nodes files id = .error 503 "file not replicated yet") := by
  cases nodes with
  | nil => exact absurd rfl hn
  | cons n0 rest =>
    constructor
    · intro h
      simp [nearestHandler, h]
    · intro meta hm hrep
      simp [nearestHandler, hm, hrep]

theorem nearest_notfound_and_unreplicated_witness :
    nearestHandler [⟨"a", "u", 0, 0⟩] [] "x" = HttpResult.notFound ∧
    nearestHandler [⟨"a", "u", 0, 0⟩] [("y", ⟨"y", "f", 1, [], ""⟩)] "y"
      = HttpResult.error 503 "file not replicated yet" := by
  constructor
  · exact (nearest_notfound_and_unreplicated [⟨"a", "u", 0, 0⟩] [] "x"
      (by simp)).1 rfl
  · exact (nearest_notfound_and_unreplicated [⟨"a", "u", 0, 0⟩]
      [("y", ⟨"y", "f", 1, [], ""⟩)] "y" (by simp)).2 ⟨"y", "f", 1, [], ""⟩ rfl rfl

/-- C1: a record whose replica list names only unconfigured node ids does not
make the nearest handler answer 503: the scan at lines 198-208 never matches,
best keeps its nodes[0] default from line 195, and the handler answers 200
with the first configured node. Concretely, with one configured node A and a
record replicated only to B, the handler returns node A and no 503. -/
theorem nearest_orphan_replicas_returns_first_node :
    nearestHandler [⟨"A", "u", 0, 0⟩] [("f", ⟨"f", "g", 1, ["B"], ""⟩)] "f"
      = HttpResult.node ⟨"A", "u", 0, 0⟩ ∧
    ∀ s msg, nearestHandler [⟨"A", "u", 0, 0⟩] [("f", ⟨"f", "g", 1, ["B"], ""⟩)]
        "f" ≠ HttpResult.error s msg := by
  have h1 : nearestHandler [⟨"A", "u", 0, 0⟩] [("f", ⟨"f", "g", 1, ["B"], ""⟩)]
      "f" = HttpResult.node ⟨"A", "u", 0, 0⟩ := rfl
  refine ⟨h1, ?_⟩
  intro s msg h
  rw [h1] at h
  exact HttpResult.noConfusion h

/-- C8: the delete handler removes the metadata entry unconditionally: whatever
the per-node outcomes, a get of the id afterwards reports not found, the
response is the plain confirmation text, and deleting an id that was never
stored is a no-op on the map. -/
theorem delete_unconditional_and_idempotent (nodes : List StorageNode)
    (outcomes : StorageNode → Option Nat) (files : Store) (id : String) :
    getMeta (deleteHandler nodes outcomes files id).1 id = none ∧
    (deleteHandler nodes outcomes files id).2 = .text "deleted" ∧
    (getMeta files id = none →
      (deleteHandler nodes outcomes files id).1 = files) := by
  refine ⟨getMeta_delMeta files id, rfl, ?_⟩
  intro h
  exact delMeta_of_absent files id h

theorem delete_unconditional_and_idempotent_witness :
    getMeta (deleteHandler [] (fun _ => none) [] "a").1 "a" = none ∧
    (deleteHandler [] (fun _ => none) [] "a").2 = HttpResult.text "deleted" ∧
    (deleteHandler [] (fun _ => none) [] "a").1 = [] := by
  have h := delete_unconditional_and_idempotent [] (fun _ => none) [] "a"
  exact ⟨h.1, h.2.1, h.2.2 rfl⟩

/-- C9: the metadata mapping visible when the process starts serving is empty
whatever the durable file holds, because main never invokes loadDB: a record
persisted before a restart is not found afterwards, contrary to the spec. The
loadDB function itself does treat absent or malformed storage as an empty
store without error, but it is dead code. -/
theorem startup_never_reads_durable (raw : Option (Option Store))
    (id : String) :
    startupFiles raw = [] ∧ getMeta (startupFiles raw) id = none ∧
    loadDB none [] = [] ∧ loadDB (some none) [] = [] :=
  ⟨rfl, rfl, rfl, rfl⟩

/-- C10: with at least one configured node the read path answers a 307 redirect
to the file endpoint of the first node for every id, ingested or not: the
handler takes no metadata map at all and can never answer 404. -/
theorem file_redirects_to_first_node (n0 : StorageNode)
    (rest : List StorageNode) (id : String) :
    fileHandler (n0 :: rest) id = .redirect 307 (n0.url ++ "/file/" ++ id) ∧
    fileHandler (n0 :: rest) id ≠ .notFound := by
  refine ⟨rfl, ?_⟩
  intro h
  exact HttpResult.noConfusion h

theorem file_redirects_to_first_node_witness :
    fileHandler [⟨"a", "u", 0, 0⟩] "x"
      = HttpResult.redirect 307 ((StorageNode.mk "a" "u" 0 0).url ++ "/file/" ++ "x") ∧
    fileHandler [⟨"a", "u", 0, 0⟩] "x" ≠ HttpResult.notFound :=
  file_redirects_to_first_node ⟨"a", "u", 0, 0⟩ [] "x"
